import Mathlib

/-!
Verification development for the ZapSign → Notion → Z-API webhook service
(`main.py`). The source is a single FastAPI module:

* `Settings`: environment configuration (Notion/Z-API credentials, optional
  `ZAPSIGN_HMAC_SECRET`);
* pydantic models `ResendAttempts`, `Signer`, `Answer`, `WebhookPayload`;
* `notion_search_student`: two sequential Notion database queries (exact email,
  then first-name substring) deciding whether a student already exists;
* `send_whatsapp`: digit-normalises the phone and posts to the Z-API endpoint;
* `verify_signature`: optional HMAC-SHA256 check of the raw body;
* `webhook`: the POST handler orchestrating verification, validation, the
  status gate, classification, message composition and the WhatsApp send.

The embedding below is shallow: outbound HTTP responses are oracle inputs
(`QueryResp`, a success bit for the send), outbound requests are recorded in a
trace of `Call`s, Python exceptions become a `PyError` sum propagated through
`Except`, and HMAC-SHA256 is implemented concretely on byte lists.
-/

namespace ZapSignWebhook

/-! ## Bytes, 32-bit words and SHA-256 (models `hashlib.sha256` / `hmac`) -/

/-- Truncate to a 32-bit word, the wrap-around of all SHA-256 arithmetic. -/
def w32 (n : Nat) : Nat := n % 4294967296

/-- Right rotation of a 32-bit word by `n` bits. -/
def rotr (n x : Nat) : Nat := w32 ((x >>> n) ||| (x <<< (32 - n)))

def shaCh (x y z : Nat) : Nat := (x &&& y) ^^^ ((x ^^^ 4294967295) &&& z)

def shaMaj (x y z : Nat) : Nat := (x &&& y) ^^^ (x &&& z) ^^^ (y &&& z)

def bigSigma0 (x : Nat) : Nat := rotr 2 x ^^^ rotr 13 x ^^^ rotr 22 x

def bigSigma1 (x : Nat) : Nat := rotr 6 x ^^^ rotr 11 x ^^^ rotr 25 x

def smallSigma0 (x : Nat) : Nat := rotr 7 x ^^^ rotr 18 x ^^^ (x >>> 3)

def smallSigma1 (x : Nat) : Nat := rotr 17 x ^^^ rotr 19 x ^^^ (x >>> 10)

/-- The 64 SHA-256 round constants of FIPS 180-4, in decimal. -/
def shaK : List Nat :=
  [1116352408, 1899447441, 3049323471, 3921009573,
   961987163, 1508970993, 2453635748, 2870763221,
   3624381080, 310598401, 607225278, 1426881987,
   1925078388, 2162078206, 2614888103, 3248222580,
   3835390401, 4022224774, 264347078, 604807628,
   770255983, 1249150122, 1555081692, 1996064986,
   2554220882, 2821834349, 2952996808, 3210313671,
   3336571891, 3584528711, 113926993, 338241895,
   666307205, 773529912, 1294757372, 1396182291,
   1695183700, 1986661051, 2177026350, 2456956037,
   2730485921, 2820302411, 3259730800, 3345764771,
   3516065817, 3600352804, 4094571909, 275423344,
   430227734, 506948616, 659060556, 883997877,
   958139571, 1322822218, 1537002063, 1747873779,
   1955562222, 2024104815, 2227730452, 2361852424,
   2428436474, 2756734187, 3204031479, 3329325298]

/-- The SHA-256 working state: eight 32-bit words. -/
structure H8 where
  a : Nat
  b : Nat
  c : Nat
  d : Nat
  e : Nat
  f : Nat
  g : Nat
  h : Nat
deriving DecidableEq

/-- The SHA-256 initial hash value of FIPS 180-4, in decimal. -/
def shaInit : H8 :=
  ⟨1779033703, 3144134277, 1013904242, 2773480762,
   1359893119, 2600822924, 528734635, 1541459225⟩

/-- One SHA-256 round with round constant `k` and schedule word `w`. -/
def shaRound (k w : Nat) (s : H8) : H8 :=
  let t1 := w32 (s.h + bigSigma1 s.e + shaCh s.e s.f s.g + k + w)
  let t2 := w32 (bigSigma0 s.a + shaMaj s.a s.b s.c)
  ⟨w32 (t1 + t2), s.a, s.b, s.c, w32 (s.d + t1), s.e, s.f, s.g⟩

/-- The big-endian 32-bit word starting at byte `4*i` of `l`. -/
def word32At (l : List Nat) (i : Nat) : Nat :=
  l.getD (4 * i) 0 * 16777216 + l.getD (4 * i + 1) 0 * 65536 +
    l.getD (4 * i + 2) 0 * 256 + l.getD (4 * i + 3) 0

/-- Extend the 16 block words to the 64-word message schedule. -/
def shaSchedule (block : List Nat) : Array Nat :=
  (List.range 48).foldl
    (fun arr i =>
      let j := i + 16
      arr.push (w32 (arr.getD (j - 16) 0 + smallSigma0 (arr.getD (j - 15) 0) +
        arr.getD (j - 7) 0 + smallSigma1 (arr.getD (j - 2) 0))))
    ((List.range 16).map (word32At block)).toArray

/-- Compress one 64-byte block into the running hash value. -/
def shaCompress (hs : H8) (block : List Nat) : H8 :=
  let w := shaSchedule block
  let s := (List.range 64).foldl
    (fun s i => shaRound (shaK.getD i 0) (w.getD i 0) s) hs
  ⟨w32 (hs.a + s.a), w32 (hs.b + s.b), w32 (hs.c + s.c), w32 (hs.d + s.d),
   w32 (hs.e + s.e), w32 (hs.f + s.f), w32 (hs.g + s.g), w32 (hs.h + s.h)⟩

/-- Big-endian bytes of a 32-bit word. -/
def be32 (n : Nat) : List Nat :=
  [n >>> 24 % 256, n >>> 16 % 256, n >>> 8 % 256, n % 256]

/-- Big-endian bytes of a 64-bit length field. -/
def be64 (n : Nat) : List Nat :=
  [n >>> 56 % 256, n >>> 48 % 256, n >>> 40 % 256, n >>> 32 % 256,
   n >>> 24 % 256, n >>> 16 % 256, n >>> 8 % 256, n % 256]

/-- SHA-256 padding: a `0x80` byte, zeros to 56 mod 64, the bit length. -/
def shaPad (msg : List Nat) : List Nat :=
  msg ++ 128 :: List.replicate ((119 - msg.length % 64) % 64) 0 ++
    be64 (8 * msg.length)

/-- SHA-256 of a byte list, as its 32-byte digest. -/
def sha256 (msg : List Nat) : List Nat :=
  let padded := shaPad msg
  let final := (List.range (padded.length / 64)).foldl
    (fun hs i => shaCompress hs ((padded.drop (64 * i)).take 64)) shaInit
  be32 final.a ++ be32 final.b ++ be32 final.c ++ be32 final.d ++
    be32 final.e ++ be32 final.f ++ be32 final.g ++ be32 final.h

/-- HMAC-SHA256 with 64-byte block size, per RFC 2104. -/
def hmacSha256 (key msg : List Nat) : List Nat :=
  let k0 := if 64 < key.length then sha256 key else key
  let kp := k0 ++ List.replicate (64 - k0.length) 0
  sha256 ((kp.map (fun b => b ^^^ 92)) ++
    sha256 ((kp.map (fun b => b ^^^ 54)) ++ msg))

/-- Lowercase hex character for a nibble. -/
def hexChar (n : Nat) : Char :=
  if n < 10 then Char.ofNat (48 + n) else Char.ofNat (87 + n)

/-- Lowercase hexadecimal rendering of a byte list (Python `hexdigest`). -/
def bytesToHex (bs : List Nat) : String :=
  ⟨bs.foldr (fun b acc => hexChar (b / 16 % 16) :: hexChar (b % 16) :: acc) []⟩

/-- UTF-8 bytes of a string (Python `str.encode()`). -/
def strBytes (s : String) : List Nat :=
  s.toUTF8.toList.map (fun b => b.toNat)

/-- The lowercase hex HMAC-SHA256 digest of `body` under string key `secret`:
`hmac.new(secret.encode(), body, hashlib.sha256).hexdigest()`. -/
def hmacSha256Hex (secret : String) (body : List Nat) : String :=
  bytesToHex (hmacSha256 (strBytes secret) body)

/-! ## Python string helpers used by the source -/

/-- `re.sub(r"\D", "", s)`: drop every non-digit character, keeping order. -/
def digitsOnly (s : String) : String := ⟨s.data.filter Char.isDigit⟩

/-- Core of `str.strip()`: drop leading and trailing whitespace characters. -/
def stripChars (l : List Char) : List Char :=
  ((l.dropWhile Char.isWhitespace).reverse.dropWhile Char.isWhitespace).reverse

/-- `str.strip()` on strings. -/
def pyStrip (s : String) : String := ⟨stripChars s.data⟩

/-- `str.lower()`, character by character (ASCII-level model). -/
def pyLower (s : String) : String := ⟨s.data.map Char.toLower⟩

/-- The first whitespace-delimited token of a character list, if any:
`l.split()[0]` succeeds exactly when this is `some`. -/
def firstToken : List Char → Option (List Char)
  | [] => none
  | c :: cs =>
    if c.isWhitespace then firstToken cs
    else some (c :: cs.takeWhile (fun d => !d.isWhitespace))

/-- `s.split()[0]` as an `Option`: `none` models the `IndexError` raised on a
string with no non-whitespace character. -/
def firstTokenStr (s : String) : Option String :=
  (firstToken s.data).map (fun l => ⟨l⟩)

/-- Python dict-comprehension-then-`.get`: the value of the last pair whose
key equals `k`, else the default `d`. -/
def pyDictGet (l : List (String × String)) (k d : String) : String :=
  l.foldl (fun acc p => if p.1 = k then p.2 else acc) d

/-! ## Data model (the pydantic models of `main.py`) -/

/-- `ResendAttempts(BaseModel)`. -/
structure ResendAttempts where
  whatsapp : Int
  email : Int
  sms : Int
deriving DecidableEq

/-- `Signer(BaseModel)`. -/
structure Signer where
  token : String
  status : String
  name : String
  email : String
  phone_country : String
  phone_number : String
  times_viewed : Int
  signed_at : Option String
  resend_attempts : ResendAttempts
deriving DecidableEq

/-- `Answer(BaseModel)`: one answered form field. The source field is named
`variable`, a Lean keyword, hence the guillemets. -/
structure Answer where
  «variable» : String
  value : String
deriving DecidableEq

/-- `WebhookPayload(BaseModel)`. `answers : Optional[List[Answer]] = []` is an
`Option (List Answer)`: `some []` is the default for an absent field, `none`
is an explicit JSON `null`. -/
structure WebhookPayload where
  event_type : String
  status : String
  name : String
  token : String
  signers : List Signer
  answers : Option (List Answer)
  signer_who_signed : Signer
deriving DecidableEq

/-! ## JSON values and pydantic-style validation -/

/-- A parsed JSON document, the input to `model_validate_json` after the JSON
grammar has been decoded. -/
inductive Json where
  | null : Json
  | bool (b : Bool) : Json
  | num (n : Int) : Json
  | str (s : String) : Json
  | arr (xs : List Json) : Json
  | obj (fields : List (String × Json)) : Json

/-- Field lookup in a JSON object; the last occurrence wins, as in Python's
`json` module. -/
def jLookup (fields : List (String × Json)) (k : String) : Option Json :=
  fields.foldl (fun acc p => if p.1 = k then some p.2 else acc) none

/-- Validate a required string field. -/
def vStr : Option Json → Except String String
  | some (Json.str s) => Except.ok s
  | some _ => Except.error "expected a string"
  | none => Except.error "field required"

/-- Validate a required integer field. -/
def vInt : Option Json → Except String Int
  | some (Json.num n) => Except.ok n
  | some _ => Except.error "expected an integer"
  | none => Except.error "field required"

/-- Validate `Optional[str] = None`: absent and `null` both become `none`. -/
def vOptStr : Option Json → Except String (Option String)
  | none => Except.ok none
  | some Json.null => Except.ok none
  | some (Json.str s) => Except.ok (some s)
  | some _ => Except.error "expected a string or null"

/-- Validate a `ResendAttempts` object. -/
def vResendAttempts (j : Json) : Except String ResendAttempts :=
  match j with
  | Json.obj f =>
    match vInt (jLookup f "whatsapp"), vInt (jLookup f "email"),
        vInt (jLookup f "sms") with
    | Except.ok w, Except.ok e, Except.ok s => Except.ok ⟨w, e, s⟩
    | Except.error e, _, _ => Except.error e
    | _, Except.error e, _ => Except.error e
    | _, _, Except.error e => Except.error e
  | _ => Except.error "expected an object"

/-- Validate a `Signer` object. -/
def vSigner (j : Json) : Except String Signer :=
  match j with
  | Json.obj f =>
    match vStr (jLookup f "token"), vStr (jLookup f "status"),
        vStr (jLookup f "name"), vStr (jLookup f "email"),
        vStr (jLookup f "phone_country"), vStr (jLookup f "phone_number"),
        vInt (jLookup f "times_viewed"), vOptStr (jLookup f "signed_at") with
    | Except.ok tok, Except.ok st, Except.ok nm, Except.ok em, Except.ok pc,
        Except.ok pn, Except.ok tv, Except.ok sa =>
      match jLookup f "resend_attempts" with
      | none => Except.error "field required"
      | some rj =>
        match vResendAttempts rj with
        | Except.ok ra => Except.ok ⟨tok, st, nm, em, pc, pn, tv, sa, ra⟩
        | Except.error e => Except.error e
    | Except.error e, _, _, _, _, _, _, _ => Except.error e
    | _, Except.error e, _, _, _, _, _, _ => Except.error e
    | _, _, Except.error e, _, _, _, _, _ => Except.error e
    | _, _, _, Except.error e, _, _, _, _ => Except.error e
    | _, _, _, _, Except.error e, _, _, _ => Except.error e
    | _, _, _, _, _, Except.error e, _, _ => Except.error e
    | _, _, _, _, _, _, Except.error e, _ => Except.error e
    | _, _, _, _, _, _, _, Except.error e => Except.error e
  | _ => Except.error "expected an object"

/-- Validate one `Answer` object. -/
def vAnswer (j : Json) : Except String Answer :=
  match j with
  | Json.obj f =>
    match vStr (jLookup f "variable"), vStr (jLookup f "value") with
    | Except.ok va, Except.ok vl => Except.ok ⟨va, vl⟩
    | Except.error e, _ => Except.error e
    | _, Except.error e => Except.error e
  | _ => Except.error "expected an object"

/-- Validate `answers : Optional[List[Answer]] = []`: an absent field takes
the default `[]`; an explicit `null` validates to `None`. -/
def vAnswers : Option Json → Except String (Option (List Answer))
  | none => Except.ok (some [])
  | some Json.null => Except.ok none
  | some (Json.arr xs) => (xs.mapM vAnswer).map some
  | some _ => Except.error "expected a list or null"

/-- Validate `signers : List[Signer]`. -/
def vSigners : Option Json → Except String (List Signer)
  | some (Json.arr xs) => xs.mapM vSigner
  | some _ => Except.error "expected a list"
  | none => Except.error "field required"

/-- `WebhookPayload.model_validate_json`, after JSON decoding: structural and
type validation of the payload object. -/
def validateWebhookPayload (j : Json) : Except String WebhookPayload :=
  match j with
  | Json.obj f =>
    match vStr (jLookup f "event_type"), vStr (jLookup f "status"),
        vStr (jLookup f "name"), vStr (jLookup f "token"),
        vSigners (jLookup f "signers"), vAnswers (jLookup f "answers") with
    | Except.ok et, Except.ok st, Except.ok nm, Except.ok tok, Except.ok sg,
        Except.ok ans =>
      match jLookup f "signer_who_signed" with
      | none => Except.error "field required"
      | some sj =>
        match vSigner sj with
        | Except.ok sws => Except.ok ⟨et, st, nm, tok, sg, ans, sws⟩
        | Except.error e => Except.error e
    | Except.error e, _, _, _, _, _ => Except.error e
    | _, Except.error e, _, _, _, _ => Except.error e
    | _, _, Except.error e, _, _, _ => Except.error e
    | _, _, _, Except.error e, _, _ => Except.error e
    | _, _, _, _, Except.error e, _ => Except.error e
    | _, _, _, _, _, Except.error e => Except.error e
  | _ => Except.error "expected an object"

/-! ## Effects, oracles and errors

Outbound HTTP requests are recorded as `Call`s; the external services'
responses are oracle inputs. `r.raise_for_status()` on a non-success response
and the Python runtime errors visible in this module become `PyError`s, which
propagate to FastAPI as an unhandled exception (HTTP 5xx). -/

/-- A Python exception relevant to this module. -/
inductive PyError where
  | httpStatusError
  | indexError
  | typeError
deriving DecidableEq

/-- One outbound HTTP request made by the service. -/
inductive Call where
  | notionQuery (filterProperty : String) (cond : String) (value : String)
  | zapiSend (phone : String) (message : String)
deriving DecidableEq

/-- The oracle for one Notion query response: whether `raise_for_status`
passes and whether the `results` array is non-empty. -/
structure QueryResp where
  success : Bool
  results : Bool
deriving DecidableEq

/-- The HTTP outcome of one webhook invocation. -/
inductive HttpOutcome where
  | noContent204
  | unauthorized401
  | badRequest400 (detail : String)
  | serverError (e : PyError)
deriving DecidableEq

/-! ## The components of `main.py` -/

/-- `verify_signature(body, header)`. The configured secret and the header are
`Option String`s; Python truthiness makes the empty string act like absence. -/
def verify_signature (secret : Option String) (body : List Nat)
    (header : Option String) : Bool :=
  match secret, header with
  | some s, some h =>
    if s = "" ∨ h = "" then true
    else hmacSha256Hex s body == h
  | _, _ => true

/-- `notion_search_student(email, full_name)`: the exact-email query, then on
an empty result the first-name-substring query; `raise_for_status` failures
and the `full_name.split()[0]` on an empty token list surface as errors. -/
def notion_search_student (email full_name : String) (r1 r2 : QueryResp) :
    Except PyError Bool × List Call :=
  let c1 := Call.notionQuery "Email" "equals" email
  if r1.success = false then (Except.error PyError.httpStatusError, [c1])
  else if r1.results then (Except.ok true, [c1])
  else
    match firstTokenStr full_name with
    | none => (Except.error PyError.indexError, [c1])
    | some first =>
      let c2 := Call.notionQuery "Student Name" "contains" first
      if r2.success = false then (Except.error PyError.httpStatusError, [c1, c2])
      else (Except.ok r2.results, [c1, c2])

/-- `send_whatsapp(phone, msg)`: digit-normalises the phone and posts once. -/
def send_whatsapp (phone msg : String) (sendOk : Bool) :
    Except PyError Unit × List Call :=
  let c := Call.zapiSend (digitsOnly phone) msg
  (if sendOk then Except.ok () else Except.error PyError.httpStatusError, [c])

/-- The text before the first name in the returning-student message. -/
def emA : String := "Olá "

/-- The text after the first name in the returning-student message. -/
def emB : String :=
  ", parabéns pela escolha de continuar seus estudos. Tenho certeza de que a continuação dessa jornada será incrível. Já sabe, não é? Se precisar de algo, pode contar com a gente! Rumo à fluência!"

/-- The returning-student message template. -/
def existing_msg (first : String) : String := emA ++ first ++ emB

/-- Welcome template: text before the first name. -/
def wmA : String := "Welcome "

/-- Welcome template: text between the first name and the dependent's name. -/
def wmB : String := "! 🎉 Parabéns pela excelente decisão para "

/-- Welcome template: text between the dependent's name and the email. -/
def wmC : String :=
  "! Tenho certeza de que será uma experiência incrível para vocês!\n\nSou Marcello, seu ponto de contato para tudo o que precisar da Escola Karol Elói Language Learning. Estou aqui para garantir que sua filha tenha uma jornada fluida, produtiva e cheia de progresso.\n\nVi que o e‑mail cadastrado é "

/-- Welcome template: text after the email. -/
def wmD : String :=
  ". Você deseja usá-lo para tudo ou prefere trocar? Lembrando que será somente um e‑mail para todas as plataformas."

/-- The new-student welcome message template. -/
def welcome_msg (first nome_filho email : String) : String :=
  wmA ++ first ++ wmB ++ nome_filho ++ wmC ++ email ++ wmD

/-- `{a.variable.lower(): a.value for a in answers}` as an association list;
`pyDictGet` takes the last occurrence, as dict insertion overwrites. -/
def answersDict (ans : List Answer) : List (String × String) :=
  ans.map (fun a => (pyLower a.«variable», a.value))

/-- Steps 6 of the handler: choose and fill the message template. Iterating
`data.answers` when it is `None` raises a `TypeError`. -/
def compose_message (already : Bool) (first email : String)
    (answers : Option (List Answer)) : Except PyError String :=
  if already then Except.ok (existing_msg first)
  else
    match answers with
    | none => Except.error PyError.typeError
    | some ans =>
      Except.ok (welcome_msg first
        (pyDictGet (answersDict ans) "nome completo" "sua filha") email)

/-- The handler's signed path (source lines 154-185): strip the name, lower
the email, normalise the phone, take the first name token, classify, compose
and send. The source's locals (`full_name`, `email`, `phone`, `first`) are
inlined. -/
def handle_signed (data : WebhookPayload) (r1 r2 : QueryResp) (sendOk : Bool) :
    HttpOutcome × List Call :=
  match firstTokenStr (pyStrip data.signer_who_signed.name) with
  | none => (HttpOutcome.serverError PyError.indexError, [])
  | some first =>
    match notion_search_student (pyLower data.signer_who_signed.email)
        (pyStrip data.signer_who_signed.name) r1 r2 with
    | (Except.error e, calls) => (HttpOutcome.serverError e, calls)
    | (Except.ok already, calls) =>
      match compose_message already first (pyLower data.signer_who_signed.email)
          data.answers with
      | Except.error e => (HttpOutcome.serverError e, calls)
      | Except.ok msg =>
        match send_whatsapp (digitsOnly (data.signer_who_signed.phone_country ++
            data.signer_who_signed.phone_number)) msg sendOk with
        | (Except.ok _, sc) => (HttpOutcome.noContent204, calls ++ sc)
        | (Except.error e, sc) => (HttpOutcome.serverError e, calls ++ sc)

/-- `WebhookPayload.model_validate_json(raw)`: JSON decoding (the grammar is
the `decode` parameter) followed by structural validation; either failure is
the `except` branch of the handler. -/
def model_validate_json (decode : List Nat → Except String Json)
    (raw : List Nat) : Except String WebhookPayload :=
  match decode raw with
  | Except.error e => Except.error e
  | Except.ok j => validateWebhookPayload j

/-- The `POST /webhook/zapsign` handler: signature check (401 on failure),
JSON decode plus validation (400 on failure), the `status != "signed"` early
return (204, nothing else done), then the signed path. -/
def webhook (secret : Option String) (header : Option String)
    (decode : List Nat → Except String Json) (raw : List Nat)
    (r1 r2 : QueryResp) (sendOk : Bool) : HttpOutcome × List Call :=
  if verify_signature secret raw header = false then
    (HttpOutcome.unauthorized401, [])
  else
    match model_validate_json decode raw with
    | Except.error e => (HttpOutcome.badRequest400 e, [])
    | Except.ok data =>
      if data.status ≠ "signed" then (HttpOutcome.noContent204, [])
      else handle_signed data r1 r2 sendOk

/-! ## Sample payload used by the concrete witnesses -/

/-- A concrete `resend_attempts` JSON object. -/
def sampleResendJson : Json :=
  Json.obj [("whatsapp", Json.num 0), ("email", Json.num 0), ("sms", Json.num 0)]

/-- A concrete signer JSON object with the given display name. -/
def sampleSignerJson (name : String) : Json :=
  Json.obj [("token", Json.str "s1"), ("status", Json.str "signed"),
    ("name", Json.str name), ("email", Json.str "Ana@Ex.com"),
    ("phone_country", Json.str "+55"), ("phone_number", Json.str "11 97557-8651"),
    ("times_viewed", Json.num 1), ("signed_at", Json.str "2025-01-01"),
    ("resend_attempts", sampleResendJson)]

/-- The field list of a concrete payload JSON object with the given status
and signer name; `answersField` is empty to leave `answers` absent, or holds
the explicit `answers` pair. -/
def mkPayloadFields (status name : String)
    (answersField : List (String × Json)) : List (String × Json) :=
  [("event_type", Json.str "doc_signed"), ("status", Json.str status),
    ("name", Json.str "Contrato"), ("token", Json.str "doc123"),
    ("signers", Json.arr [sampleSignerJson name])] ++ answersField ++
    [("signer_who_signed", sampleSignerJson name)]

/-- A concrete payload JSON object. -/
def mkPayloadJson (status name : String)
    (answersField : List (String × Json)) : Json :=
  Json.obj (mkPayloadFields status name answersField)

/-- The signer `sampleSignerJson name` validates to. -/
def sampleSigner (name : String) : Signer :=
  ⟨"s1", "signed", name, "Ana@Ex.com", "+55", "11 97557-8651", 1,
    some "2025-01-01", ⟨0, 0, 0⟩⟩

/-- The payload `mkPayloadJson status name _` validates to. -/
def samplePayload (status name : String) (answers : Option (List Answer)) :
    WebhookPayload :=
  ⟨"doc_signed", status, "Contrato", "doc123", [sampleSigner name], answers,
    sampleSigner name⟩

/-- `occursIn needle haystack`: `needle` appears contiguously in `haystack`. -/
def occursIn (needle haystack : String) : Prop :=
  ∃ a b : List Char, haystack.data = a ++ needle.data ++ b

/-! ## Helper lemmas -/

theorem digitsOnly_idem (s : String) : digitsOnly (digitsOnly s) = digitsOnly s :=
  congrArg String.mk
    (List.filter_eq_self.mpr fun _ ha => List.of_mem_filter ha)

theorem notion_no_send (email full_name : String) (r1 r2 : QueryResp)
    (p m : String) :
    Call.zapiSend p m ∉ (notion_search_student email full_name r1 r2).2 := by
  unfold notion_search_student
  split
  · simp
  · split
    · simp
    · split
      · simp
      · split
        · simp
        · simp

theorem stripChars_eq_nil (l : List Char)
    (h : ∀ c ∈ l, c.isWhitespace = true) : stripChars l = [] := by
  unfold stripChars
  rw [List.dropWhile_eq_nil_iff.mpr h]
  rfl

theorem dictFold_spec (k : String) (l : List (String × String)) :
    ∀ init : String,
      (l.foldl (fun acc p => if p.1 = k then p.2 else acc) init = init ∧
        ∀ p ∈ l, p.1 ≠ k) ∨
      (∃ p ∈ l, p.1 = k ∧
        l.foldl (fun acc p => if p.1 = k then p.2 else acc) init = p.2) := by
  induction l with
  | nil => exact fun init => Or.inl ⟨rfl, by simp⟩
  | cons q t ih =>
    intro init
    rcases ih (if q.1 = k then q.2 else init) with ⟨heq, hall⟩ | ⟨p, hp, hk, heq⟩
    · by_cases hq : q.1 = k
      · refine Or.inr ⟨q, List.mem_cons_self q t, hq, ?_⟩
        simpa [List.foldl_cons, hq] using heq
      · refine Or.inl ⟨by simpa [List.foldl_cons, hq] using heq, ?_⟩
        intro p hp
        rcases List.mem_cons.mp hp with rfl | hp
        · exact hq
        · exact hall p hp
    · refine Or.inr ⟨p, List.mem_cons_of_mem q hp, hk, ?_⟩
      simpa [List.foldl_cons] using heq

theorem pyDictGet_pos (l : List (String × String)) (k d : String)
    (h : ∃ p ∈ l, p.1 = k) :
    ∃ p ∈ l, p.1 = k ∧ pyDictGet l k d = p.2 := by
  rcases dictFold_spec k l d with ⟨_, hall⟩ | hex
  · rcases h with ⟨p, hp, hk⟩
    exact absurd hk (hall p hp)
  · exact hex

theorem pyDictGet_neg (l : List (String × String)) (k d : String)
    (h : ∀ p ∈ l, p.1 ≠ k) : pyDictGet l k d = d := by
  rcases dictFold_spec k l d with ⟨heq, _⟩ | ⟨p, hp, hk, _⟩
  · exact heq
  · exact absurd hk (h p hp)

theorem send_whatsapp_trace (phone msg : String) (sendOk : Bool) :
    (send_whatsapp phone msg sendOk).2 =
      [Call.zapiSend (digitsOnly phone) msg] := rfl

theorem notion_fail (email full_name : String) (r1 r2 : QueryResp)
    (hname : firstTokenStr full_name ≠ none)
    (hfail : r1.success = false ∨ (r1.results = false ∧ r2.success = false)) :
    (notion_search_student email full_name r1 r2).1 =
      Except.error PyError.httpStatusError := by
  obtain ⟨first, hf⟩ := Option.ne_none_iff_exists'.mp hname
  rcases hfail with h1 | ⟨hr, h2⟩
  · simp [notion_search_student, h1]
  · by_cases h1s : r1.success = false
    · simp [notion_search_student, h1s]
    · simp [notion_search_student, h1s, hr, hf, h2]

theorem validate_answers_field (fields : List (String × Json))
    (p : WebhookPayload)
    (hok : validateWebhookPayload (Json.obj fields) = Except.ok p) :
    vAnswers (jLookup fields "answers") = Except.ok p.answers := by
  unfold validateWebhookPayload at hok
  split at hok
  · split at hok <;> try exact Except.noConfusion hok
    split at hok <;> try exact Except.noConfusion hok
    split at hok <;> try exact Except.noConfusion hok
    simp_all
    subst hok
    rfl
  · exact absurd rfl (‹∀ f, Json.obj fields = Json.obj f → False› fields)

theorem welcome_msg_decomp (f n e : String) :
    occursIn n (welcome_msg f n e) ∧ occursIn e (welcome_msg f n e) := by
  constructor
  · exact ⟨(wmA ++ f ++ wmB).data, (wmC ++ e ++ wmD).data, by
      simp [welcome_msg, String.data_append, List.append_assoc]⟩
  · exact ⟨(wmA ++ f ++ wmB ++ n ++ wmC).data, wmD.data, by
      simp [welcome_msg, String.data_append, List.append_assoc]⟩

/-! ## Claims -/

/-- C2 counterexample: with the email-exact query succeeding with an empty
`results` array and the name query succeeding with a non-empty one — the
claim's condition for returning `true` — a whitespace-only full name makes
`full_name.split()[0]` raise `IndexError`, so the classifier returns neither
`true` nor `false`. -/
theorem classifier_pure_decision_cex :
    (notion_search_student "a@b.c" " " ⟨true, false⟩ ⟨true, true⟩).1 =
      Except.error PyError.indexError ∧
    (notion_search_student "a@b.c" " " ⟨true, false⟩ ⟨true, true⟩).1 ≠
      Except.ok true ∧
    (notion_search_student "a@b.c" " " ⟨true, false⟩ ⟨true, true⟩).1 ≠
      Except.ok false := by
  refine ⟨rfl, ?_, ?_⟩ <;> intro h <;>
    exact Except.noConfusion ((rfl :
      (notion_search_student "a@b.c" " " ⟨true, false⟩ ⟨true, true⟩).1 =
        Except.error PyError.indexError).symm.trans h)

/-- C2 (amended): for every email and every full name with at least one
non-whitespace token, if both queries return success the classifier returns
exactly (found-by-email) OR (not found-by-email AND found-by-name). -/
theorem classifier_pure_decision (email full_name : String) (r1 r2 : QueryResp)
    (h1 : r1.success = true) (h2 : r2.success = true)
    (hname : firstTokenStr full_name ≠ none) :
    (notion_search_student email full_name r1 r2).1 =
      Except.ok (r1.results || (!r1.results && r2.results)) := by
  obtain ⟨first, hf⟩ := Option.ne_none_iff_exists'.mp hname
  by_cases hr : r1.results = true
  · simp [notion_search_student, h1, hr]
  · rw [Bool.not_eq_true] at hr
    simp [notion_search_student, h1, hr, hf, h2]

/-- C2 witness: a concrete run of the amended classifier statement. -/
theorem classifier_pure_decision_witness :
    ((⟨true, false⟩ : QueryResp).success = true ∧
      (⟨true, true⟩ : QueryResp).success = true ∧
      firstTokenStr "Ana Silva" ≠ none) ∧
    (notion_search_student "a@b.c" "Ana Silva" ⟨true, false⟩ ⟨true, true⟩).1 =
      Except.ok true :=
  ⟨⟨rfl, rfl, by decide⟩,
    classifier_pure_decision "a@b.c" "Ana Silva" ⟨true, false⟩ ⟨true, true⟩
      rfl rfl (by decide)⟩

/-- C3: if the email-exact query succeeds with a non-empty `results` array,
the classifier returns `true` and its trace is exactly the one email query —
the name-substring query is never issued, whatever its oracle `r2` says. -/
theorem classifier_short_circuit (email full_name : String) (r1 r2 : QueryResp)
    (hs : r1.success = true) (hr : r1.results = true) :
    notion_search_student email full_name r1 r2 =
      (Except.ok true, [Call.notionQuery "Email" "equals" email]) := by
  simp [notion_search_student, hs, hr]

/-- C3 witness: a concrete short-circuiting run. -/
theorem classifier_short_circuit_witness :
    ((⟨true, true⟩ : QueryResp).success = true ∧
      (⟨true, true⟩ : QueryResp).results = true) ∧
    notion_search_student "a@b.c" "Ana Silva" ⟨true, true⟩ ⟨false, false⟩ =
      (Except.ok true, [Call.notionQuery "Email" "equals" "a@b.c"]) :=
  ⟨⟨rfl, rfl⟩,
    classifier_short_circuit "a@b.c" "Ana Silva" ⟨true, true⟩ ⟨false, false⟩
      rfl rfl⟩

/-- C1: when the signature check passes, the payload validates and its status
is not "signed", the handler responds success (204, empty) with an empty
outbound-call trace — no database query and no message send. -/
theorem ignored_status_no_calls (secret header : Option String)
    (decode : List Nat → Except String Json) (raw : List Nat)
    (r1 r2 : QueryResp) (sendOk : Bool) (data : WebhookPayload)
    (hver : verify_signature secret raw header = true)
    (hparse : model_validate_json decode raw = Except.ok data)
    (hst : data.status ≠ "signed") :
    webhook secret header decode raw r1 r2 sendOk =
      (HttpOutcome.noContent204, []) := by
  unfold webhook
  rw [hver, hparse]
  simp [hst]

/-- C1 witness: a concrete "pending" invocation responds 204 with no calls. -/
theorem ignored_status_no_calls_witness :
    (verify_signature none [] none = true ∧
      model_validate_json
        (fun _ => Except.ok (mkPayloadJson "pending" "Ana Silva" [])) [] =
        Except.ok (samplePayload "pending" "Ana Silva" (some [])) ∧
      (samplePayload "pending" "Ana Silva" (some [])).status ≠ "signed") ∧
    webhook none none
      (fun _ => Except.ok (mkPayloadJson "pending" "Ana Silva" [])) []
      ⟨true, false⟩ ⟨true, false⟩ true = (HttpOutcome.noContent204, []) :=
  ⟨⟨rfl, rfl, by decide⟩,
    ignored_status_no_calls none none
      (fun _ => Except.ok (mkPayloadJson "pending" "Ana Silva" [])) []
      ⟨true, false⟩ ⟨true, false⟩ true
      (samplePayload "pending" "Ana Silva" (some [])) rfl rfl (by decide)⟩

/-- C7: if either issued database query returns a non-success HTTP status —
the first fails, or the first succeeds empty and the second fails — the
invocation ends in a server error and no message send ever happens. -/
theorem query_failure_no_send (secret header : Option String)
    (decode : List Nat → Except String Json) (raw : List Nat)
    (r1 r2 : QueryResp) (sendOk : Bool) (data : WebhookPayload)
    (hver : verify_signature secret raw header = true)
    (hparse : model_validate_json decode raw = Except.ok data)
    (hst : data.status = "signed")
    (hname : firstTokenStr (pyStrip data.signer_who_signed.name) ≠ none)
    (hfail : r1.success = false ∨ (r1.results = false ∧ r2.success = false)) :
    (webhook secret header decode raw r1 r2 sendOk).1 =
      HttpOutcome.serverError PyError.httpStatusError ∧
    ∀ p m, Call.zapiSend p m ∉
      (webhook secret header decode raw r1 r2 sendOk).2 := by
  obtain ⟨first, hf⟩ := Option.ne_none_iff_exists'.mp hname
  have hn1 := notion_fail (pyLower data.signer_who_signed.email)
    (pyStrip data.signer_who_signed.name) r1 r2 hname hfail
  rcases hpair : notion_search_student (pyLower data.signer_who_signed.email)
      (pyStrip data.signer_who_signed.name) r1 r2 with ⟨res, calls⟩
  rw [hpair] at hn1
  have hres : res = Except.error PyError.httpStatusError := hn1
  subst hres
  have hweb : webhook secret header decode raw r1 r2 sendOk =
      (HttpOutcome.serverError PyError.httpStatusError, calls) := by
    unfold webhook
    rw [hver, hparse]
    simp [hst, handle_signed, hf, hpair]
  rw [hweb]
  refine ⟨rfl, ?_⟩
  intro p m hmem
  have hns := notion_no_send (pyLower data.signer_who_signed.email)
    (pyStrip data.signer_who_signed.name) r1 r2 p m
  rw [hpair] at hns
  exact hns hmem

/-- C7 witness: a concrete signed invocation whose first database query fails
responds with a server error and never sends a message. -/
theorem query_failure_no_send_witness :
    (verify_signature none [] none = true ∧
      model_validate_json
        (fun _ => Except.ok (mkPayloadJson "signed" "Ana Silva" [])) [] =
        Except.ok (samplePayload "signed" "Ana Silva" (some [])) ∧
      (samplePayload "signed" "Ana Silva" (some [])).status = "signed" ∧
      firstTokenStr (pyStrip
        (samplePayload "signed" "Ana Silva"
          (some [])).signer_who_signed.name) ≠ none ∧
      ((⟨false, false⟩ : QueryResp).success = false ∨
        ((⟨false, false⟩ : QueryResp).results = false ∧
          (⟨true, false⟩ : QueryResp).success = false))) ∧
    ((webhook none none
        (fun _ => Except.ok (mkPayloadJson "signed" "Ana Silva" [])) []
        ⟨false, false⟩ ⟨true, false⟩ true).1 =
      HttpOutcome.serverError PyError.httpStatusError ∧
      ∀ p m, Call.zapiSend p m ∉
        (webhook none none
          (fun _ => Except.ok (mkPayloadJson "signed" "Ana Silva" [])) []
          ⟨false, false⟩ ⟨true, false⟩ true).2) :=
  ⟨⟨rfl, rfl, rfl, by decide, Or.inl rfl⟩,
    query_failure_no_send none none
      (fun _ => Except.ok (mkPayloadJson "signed" "Ana Silva" [])) []
      ⟨false, false⟩ ⟨true, false⟩ true
      (samplePayload "signed" "Ana Silva" (some []))
      rfl rfl rfl (by decide) (Or.inl rfl)⟩

/-- C8: parsing is deterministic — equal input bytes give the identical
result — and a payload object with no `answers` field that validates yields
`answers = []` (the default), not an error. -/
theorem parse_deterministic_missing_answers
    (decode : List Nat → Except String Json) (b1 b2 : List Nat)
    (fields : List (String × Json)) (p : WebhookPayload)
    (hb : b1 = b2)
    (hmiss : jLookup fields "answers" = none)
    (hok : validateWebhookPayload (Json.obj fields) = Except.ok p) :
    model_validate_json decode b1 = model_validate_json decode b2 ∧
    p.answers = some [] := by
  subst hb
  refine ⟨rfl, ?_⟩
  have h := validate_answers_field fields p hok
  rw [hmiss] at h
  injection h with h2
  exact h2.symm

/-- C8 witness: a concrete payload without the `answers` field validates
successfully and its `answers` is the empty list. -/
theorem parse_deterministic_missing_answers_witness :
    (([] : List Nat) = [] ∧
      jLookup (mkPayloadFields "signed" "Ana Silva" []) "answers" = none ∧
      validateWebhookPayload (Json.obj (mkPayloadFields "signed" "Ana Silva" [])) =
        Except.ok (samplePayload "signed" "Ana Silva" (some []))) ∧
    (model_validate_json (fun _ => Except.error "bad") [] =
      model_validate_json (fun _ => Except.error "bad") [] ∧
      (samplePayload "signed" "Ana Silva" (some [])).answers = some []) :=
  ⟨⟨rfl, rfl, rfl⟩,
    parse_deterministic_missing_answers (fun _ => Except.error "bad") [] []
      (mkPayloadFields "signed" "Ana Silva" [])
      (samplePayload "signed" "Ana Silva" (some [])) rfl rfl rfl⟩

/-- C9: an explicit JSON `null` in the `answers` field validates to
`answers = None`; a signed invocation with such a payload and no existing
match fails iterating `None` — a server error from a `TypeError`, with no
message sent. -/
theorem null_answers_type_error (fields : List (String × Json))
    (pp : WebhookPayload) (secret header : Option String)
    (decode : List Nat → Except String Json) (raw : List Nat)
    (r1 r2 : QueryResp) (sendOk : Bool) (data : WebhookPayload)
    (hnull : jLookup fields "answers" = some Json.null)
    (hvp : validateWebhookPayload (Json.obj fields) = Except.ok pp)
    (hver : verify_signature secret raw header = true)
    (hparse : model_validate_json decode raw = Except.ok data)
    (hst : data.status = "signed")
    (hname : firstTokenStr (pyStrip data.signer_who_signed.name) ≠ none)
    (hans : data.answers = none)
    (h1s : r1.success = true) (h1r : r1.results = false)
    (h2s : r2.success = true) (h2r : r2.results = false) :
    pp.answers = none ∧
    (webhook secret header decode raw r1 r2 sendOk).1 =
      HttpOutcome.serverError PyError.typeError ∧
    ∀ q m, Call.zapiSend q m ∉
      (webhook secret header decode raw r1 r2 sendOk).2 := by
  obtain ⟨first, hf⟩ := Option.ne_none_iff_exists'.mp hname
  have hpp : pp.answers = none := by
    have h := validate_answers_field fields pp hvp
    rw [hnull] at h
    injection h with h2
    exact h2.symm
  have hweb : webhook secret header decode raw r1 r2 sendOk =
      (HttpOutcome.serverError PyError.typeError,
        [Call.notionQuery "Email" "equals" (pyLower data.signer_who_signed.email),
         Call.notionQuery "Student Name" "contains" first]) := by
    unfold webhook
    rw [hver, hparse]
    simp [hst, handle_signed, hf, notion_search_student, h1s, h1r, h2s, h2r,
      compose_message, hans]
  rw [hweb]
  refine ⟨hpp, rfl, ?_⟩
  intro q m hq
  simp at hq

/-- C9 witness: a concrete signed payload with `"answers": null` and two
successful empty queries ends in a `TypeError` server error with no send. -/
theorem null_answers_type_error_witness :
    (jLookup (mkPayloadFields "signed" "Ana Silva" [("answers", Json.null)])
        "answers" = some Json.null ∧
      validateWebhookPayload
        (Json.obj (mkPayloadFields "signed" "Ana Silva" [("answers", Json.null)])) =
        Except.ok (samplePayload "signed" "Ana Silva" none) ∧
      (samplePayload "signed" "Ana Silva" none).answers = none) ∧
    ((samplePayload "signed" "Ana Silva" none).answers = none ∧
      (webhook none none
        (fun _ => Except.ok (mkPayloadJson "signed" "Ana Silva"
          [("answers", Json.null)])) [] ⟨true, false⟩ ⟨true, false⟩ true).1 =
        HttpOutcome.serverError PyError.typeError ∧
      ∀ q m, Call.zapiSend q m ∉
        (webhook none none
          (fun _ => Except.ok (mkPayloadJson "signed" "Ana Silva"
            [("answers", Json.null)])) [] ⟨true, false⟩ ⟨true, false⟩ true).2) :=
  ⟨⟨rfl, rfl, rfl⟩,
    null_answers_type_error
      (mkPayloadFields "signed" "Ana Silva" [("answers", Json.null)])
      (samplePayload "signed" "Ana Silva" none) none none
      (fun _ => Except.ok (mkPayloadJson "signed" "Ana Silva"
        [("answers", Json.null)])) []
      ⟨true, false⟩ ⟨true, false⟩ true
      (samplePayload "signed" "Ana Silva" none)
      rfl rfl rfl rfl rfl (by decide) rfl rfl rfl rfl rfl⟩

/-- C10: a signed payload whose signer name is empty or all whitespace fails
with an `IndexError` server error before any outbound call — the trace is
empty, so in particular no message is sent. -/
theorem blank_name_index_error (secret header : Option String)
    (decode : List Nat → Except String Json) (raw : List Nat)
    (r1 r2 : QueryResp) (sendOk : Bool) (data : WebhookPayload)
    (hver : verify_signature secret raw header = true)
    (hparse : model_validate_json decode raw = Except.ok data)
    (hst : data.status = "signed")
    (hws : ∀ c ∈ data.signer_who_signed.name.data, c.isWhitespace = true) :
    webhook secret header decode raw r1 r2 sendOk =
      (HttpOutcome.serverError PyError.indexError, []) := by
  have hft : firstTokenStr (pyStrip data.signer_who_signed.name) = none := by
    unfold firstTokenStr pyStrip
    rw [stripChars_eq_nil _ hws]
    rfl
  unfold webhook
  rw [hver, hparse]
  simp [hst, handle_signed, hft]

/-- C10 witness: a concrete signed payload whose signer name is one space
fails with an `IndexError` and an empty call trace. -/
theorem blank_name_index_error_witness :
    (verify_signature none [] none = true ∧
      model_validate_json
        (fun _ => Except.ok (mkPayloadJson "signed" " " [])) [] =
        Except.ok (samplePayload "signed" " " (some [])) ∧
      (samplePayload "signed" " " (some [])).status = "signed" ∧
      (∀ c ∈ (samplePayload "signed" " "
        (some [])).signer_who_signed.name.data, c.isWhitespace = true)) ∧
    webhook none none (fun _ => Except.ok (mkPayloadJson "signed" " " [])) []
      ⟨true, false⟩ ⟨true, false⟩ true =
      (HttpOutcome.serverError PyError.indexError, []) :=
  ⟨⟨rfl, rfl, rfl, by decide⟩,
    blank_name_index_error none none
      (fun _ => Except.ok (mkPayloadJson "signed" " " [])) []
      ⟨true, false⟩ ⟨true, false⟩ true
      (samplePayload "signed" " " (some [])) rfl rfl rfl (by decide)⟩

/-- C5: phone normalization keeps exactly the digits, in order (the result is
the digit subsequence of the input); the two spec examples normalize to the
same digit string; and every message the handler sends goes to the
normalization of `phone_country ++ phone_number` of the validated payload's
signer. -/
theorem phone_normalization (s : String) (secret header : Option String)
    (decode : List Nat → Except String Json) (raw : List Nat)
    (r1 r2 : QueryResp) (sendOk : Bool) (p m : String)
    (hmem : Call.zapiSend p m ∈
      (webhook secret header decode raw r1 r2 sendOk).2) :
    (digitsOnly s).data = s.data.filter Char.isDigit ∧
    List.Sublist (digitsOnly s).data s.data ∧
    (∀ c ∈ (digitsOnly s).data, c.isDigit = true) ∧
    digitsOnly "+55 (11) 91234-5678" = "5511912345678" ∧
    digitsOnly "5511912345678" = "5511912345678" ∧
    ∃ data, model_validate_json decode raw = Except.ok data ∧
      p = digitsOnly (data.signer_who_signed.phone_country ++
        data.signer_who_signed.phone_number) := by
  refine ⟨rfl, List.filter_sublist s.data,
    fun c hc => List.of_mem_filter hc, by decide, by decide, ?_⟩
  unfold webhook at hmem
  split at hmem
  · simp at hmem
  · split at hmem
    · simp at hmem
    · next data hdata =>
      split at hmem
      · simp at hmem
      · unfold handle_signed at hmem
        split at hmem
        · simp at hmem
        · next first hfirst =>
          split at hmem
          · next e calls hn =>
            have hns := notion_no_send (pyLower data.signer_who_signed.email)
              (pyStrip data.signer_who_signed.name) r1 r2 p m
            rw [hn] at hns
            exact absurd hmem hns
          · next already calls hn =>
            split at hmem
            · have hns := notion_no_send (pyLower data.signer_who_signed.email)
                (pyStrip data.signer_who_signed.name) r1 r2 p m
              rw [hn] at hns
              exact absurd hmem hns
            · next msg hc =>
              have hcalls : ∀ hm2 : Call.zapiSend p m ∈ calls, False := by
                intro hm2
                have hns := notion_no_send (pyLower data.signer_who_signed.email)
                  (pyStrip data.signer_who_signed.name) r1 r2 p m
                rw [hn] at hns
                exact hns hm2
              split at hmem <;>
                next res sc hs =>
                  rcases List.mem_append.mp hmem with hm1 | hm2
                  · exact absurd hm1 (fun h => hcalls h)
                  · have hsc : sc = [Call.zapiSend
                        (digitsOnly (digitsOnly
                          (data.signer_who_signed.phone_country ++
                            data.signer_who_signed.phone_number))) msg] := by
                      have h2 := congrArg Prod.snd hs
                      simpa [send_whatsapp] using h2.symm
                    rw [hsc] at hm2
                    simp only [List.mem_singleton, Call.zapiSend.injEq] at hm2
                    exact ⟨data, hdata, by rw [hm2.1, digitsOnly_idem]⟩

/-- C5 witness: a concrete signed run sends exactly one message, and its
phone is the digit normalization of the sample signer's country + number. -/
theorem phone_normalization_witness :
    Call.zapiSend "5511975578651" (existing_msg "Ana") ∈
      (webhook none none
        (fun _ => Except.ok (mkPayloadJson "signed" "Ana Silva" [])) []
        ⟨true, true⟩ ⟨true, false⟩ true).2 ∧
    ((digitsOnly "+55 (11) 91234-5678" = "5511912345678") ∧
      ∃ data, model_validate_json
          (fun _ => Except.ok (mkPayloadJson "signed" "Ana Silva" [])) [] =
          Except.ok data ∧
        "5511975578651" = digitsOnly (data.signer_who_signed.phone_country ++
          data.signer_who_signed.phone_number)) :=
  by
  have htr : (webhook none none
      (fun _ => Except.ok (mkPayloadJson "signed" "Ana Silva" [])) []
      ⟨true, true⟩ ⟨true, false⟩ true).2 =
      [Call.notionQuery "Email" "equals" "ana@ex.com",
       Call.zapiSend "5511975578651" (existing_msg "Ana")] := rfl
  have hmem : Call.zapiSend "5511975578651" (existing_msg "Ana") ∈
      (webhook none none
        (fun _ => Except.ok (mkPayloadJson "signed" "Ana Silva" [])) []
        ⟨true, true⟩ ⟨true, false⟩ true).2 := by
    rw [htr]
    exact List.mem_cons_of_mem _ (List.mem_singleton.mpr rfl)
  have happ := phone_normalization "x" none none
    (fun _ => Except.ok (mkPayloadJson "signed" "Ana Silva" [])) []
    ⟨true, true⟩ ⟨true, false⟩ true "5511975578651" (existing_msg "Ana") hmem
  exact ⟨hmem, happ.2.2.2.1, happ.2.2.2.2.2⟩

/-- C6: the new-student composition is deterministic; with no answer keyed
"nome completo" (case-insensitively) the message contains the fallback
"sua filha"; with such an answer present, that answer's value appears
verbatim; and the message always contains the lowercased email. -/
theorem new_student_message (first emailRaw : String) (ans : List Answer) :
    (∀ first2 email2 ans2, first2 = first → email2 = emailRaw → ans2 = ans →
      compose_message false first2 (pyLower email2) (some ans2) =
        compose_message false first (pyLower emailRaw) (some ans)) ∧
    ((∀ a ∈ ans, pyLower a.«variable» ≠ "nome completo") →
      compose_message false first (pyLower emailRaw) (some ans) =
        Except.ok (welcome_msg first "sua filha" (pyLower emailRaw)) ∧
      occursIn "sua filha" (welcome_msg first "sua filha" (pyLower emailRaw))) ∧
    ((∃ a ∈ ans, pyLower a.«variable» = "nome completo") →
      ∃ a msg, a ∈ ans ∧ pyLower a.«variable» = "nome completo" ∧
        compose_message false first (pyLower emailRaw) (some ans) =
          Except.ok msg ∧ occursIn a.value msg) ∧
    ∃ msg, compose_message false first (pyLower emailRaw) (some ans) =
      Except.ok msg ∧ occursIn (pyLower emailRaw) msg := by
  refine ⟨?_, ?_, ?_, ?_⟩
  · intro first2 email2 ans2 h1 h2 h3
    rw [h1, h2, h3]
  · intro hno
    have hd : pyDictGet (answersDict ans) "nome completo" "sua filha" =
        "sua filha" := by
      refine pyDictGet_neg _ _ _ ?_
      intro q hq
      obtain ⟨a, ha, rfl⟩ := List.mem_map.mp hq
      exact hno a ha
    refine ⟨?_, (welcome_msg_decomp first "sua filha" (pyLower emailRaw)).1⟩
    show Except.ok (welcome_msg first
      (pyDictGet (answersDict ans) "nome completo" "sua filha")
      (pyLower emailRaw)) = _
    rw [hd]
  · intro hex
    obtain ⟨a0, ha0, hk0⟩ := hex
    obtain ⟨q, hq, hqk, hqv⟩ := pyDictGet_pos (answersDict ans)
      "nome completo" "sua filha"
      ⟨(pyLower a0.«variable», a0.value), List.mem_map_of_mem _ ha0, hk0⟩
    obtain ⟨a1, ha1, hmap⟩ := List.mem_map.mp hq
    refine ⟨a1, welcome_msg first
      (pyDictGet (answersDict ans) "nome completo" "sua filha")
      (pyLower emailRaw), ha1, ?_, rfl, ?_⟩
    · have h1 : pyLower a1.«variable» = q.1 := congrArg Prod.fst hmap
      rw [h1]
      exact hqk
    · have h2 : q.2 = a1.value := (congrArg Prod.snd hmap).symm
      have hv : pyDictGet (answersDict ans) "nome completo" "sua filha" =
          a1.value := by rw [hqv, h2]
      rw [hv]
      exact (welcome_msg_decomp first a1.value (pyLower emailRaw)).1
  · exact ⟨welcome_msg first
      (pyDictGet (answersDict ans) "nome completo" "sua filha")
      (pyLower emailRaw), rfl,
      (welcome_msg_decomp first _ (pyLower emailRaw)).2⟩

/-- C6 witness: the absent-key fallback at an empty answer list, and the
present-key substitution plus the lowercased email at a one-answer list. -/
theorem new_student_message_witness :
    ((∀ a ∈ ([] : List Answer), pyLower a.«variable» ≠ "nome completo") ∧
      (∃ a ∈ [Answer.mk "Nome completo" "Bia"],
        pyLower a.«variable» = "nome completo")) ∧
    ((compose_message false "Ana" (pyLower "Ana@Ex.com") (some []) =
        Except.ok (welcome_msg "Ana" "sua filha" (pyLower "Ana@Ex.com")) ∧
      occursIn "sua filha"
        (welcome_msg "Ana" "sua filha" (pyLower "Ana@Ex.com"))) ∧
    (∃ a msg, a ∈ [Answer.mk "Nome completo" "Bia"] ∧
      pyLower a.«variable» = "nome completo" ∧
      compose_message false "Ana" (pyLower "Ana@Ex.com")
        (some [Answer.mk "Nome completo" "Bia"]) = Except.ok msg ∧
      occursIn a.value msg) ∧
    ∃ msg, compose_message false "Ana" (pyLower "Ana@Ex.com")
        (some [Answer.mk "Nome completo" "Bia"]) = Except.ok msg ∧
      occursIn (pyLower "Ana@Ex.com") msg) :=
  ⟨⟨by decide, by decide⟩,
    (new_student_message "Ana" "Ana@Ex.com" []).2.1 (by decide),
    (new_student_message "Ana" "Ana@Ex.com"
      [Answer.mk "Nome completo" "Bia"]).2.2.1 (by decide),
    (new_student_message "Ana" "Ana@Ex.com"
      [Answer.mk "Nome completo" "Bia"]).2.2.2⟩

/-- C4: with a configured non-empty secret, verifying a body against the
header equal to the lowercase hex HMAC-SHA256 of that body accepts; and for
any non-empty header, verification accepts iff the header equals exactly that
rendered digest. -/
theorem signature_round_trip (secret : String) (body : List Nat) (h : String)
    (hsec : secret ≠ "") (hh : h ≠ "") :
    verify_signature (some secret) body (some (hmacSha256Hex secret body)) =
      true ∧
    (verify_signature (some secret) body (some h) = true ↔
      h = hmacSha256Hex secret body) := by
  constructor
  · by_cases hd : hmacSha256Hex secret body = ""
    · simp [verify_signature, hd]
    · simp [verify_signature, hsec, hd]
  · show (if secret = "" ∨ h = "" then true
        else hmacSha256Hex secret body == h) = true ↔
      h = hmacSha256Hex secret body
    rw [if_neg (not_or.mpr ⟨hsec, hh⟩)]
    constructor
    · intro he
      exact (eq_of_beq he).symm
    · intro he
      rw [he]
      exact beq_self_eq_true (hmacSha256Hex secret body)

/-- C4 witness: the round trip and the acceptance condition at a concrete
secret, body and header. -/
theorem signature_round_trip_witness :
    (("k" : String) ≠ "" ∧ ("x" : String) ≠ "") ∧
    (verify_signature (some "k") [] (some (hmacSha256Hex "k" [])) = true ∧
      (verify_signature (some "k") [] (some "x") = true ↔
        "x" = hmacSha256Hex "k" [])) :=
  ⟨⟨by decide, by decide⟩,
    signature_round_trip "k" [] "x" (by decide) (by decide)⟩

end ZapSignWebhook
